import Mathlib

/-!
# Verification of the media-scraper crawling core

A shallow embedding, in Lean 4, of the crawling / pagination / retry logic of
`mediascrapers.py`:

* `sanitize_filename` (lines 25-28) and the task construction of
  `MediaScraper.scrape` (lines 229-267);
* `normalize_url` (lines 144-147) built on Python's `urlparse` / `urlunparse`;
* the bounded-depth traversal `Scraper.scrape_recursive` (lines 32-60);
* the breadth-first full-site crawl `Scraper.scrape_recursive_full_site`
  (lines 139-213), including the 3-attempt retry loop, the sitemap log,
  the hard-coded domain filter and the throttling sleeps;
* the cursor-following pagination loop of `InstagramScraper.scrape`
  (lines 340-389).

External collaborators that are not part of this repository's source
(the Selenium driver, BeautifulSoup, `util.url.complete_url`,
`util.url.is_media`, `util.instagram.parse_node`, the remote APIs) are
modelled as components of explicit environment records; the control flow and
the data handling of `mediascrapers.py` itself are translated line by line.
Effects (navigation, the sitemap file, `time.sleep`) are modelled as
append-only event logs inside the crawl state.
-/

namespace MediaScraper

/-! ## Basic string helpers (on the underlying character lists) -/

/-- Boolean substring test: does the character list `pat` occur inside `s`?
Models Python's `pat in s`. -/
def containsSub (s pat : List Char) : Bool :=
  match s with
  | [] => pat.isEmpty
  | _ :: t => pat.isPrefixOf s || containsSub t pat

/-- Substring test on strings: models Python's `pat in s`. -/
def strContains (s pat : String) : Bool :=
  containsSub s.data pat.data

/-- Models Python's `s.startswith(pre)`. -/
def strStartsWith (s pre : String) : Bool :=
  pre.data.isPrefixOf s.data

/-- Models Python's `s.lower()` (ASCII case folding). -/
def lowerStr (s : String) : String :=
  String.mk (s.data.map Char.toLower)

/-- Split a character list at the first occurrence of `sep`:
returns the part before and the part after, or `none` when `sep` is absent.
Models Python's `s.split(sep, 1)`. -/
def splitFirst (sep : Char) : List Char → Option (List Char × List Char)
  | [] => none
  | c :: cs =>
    if c = sep then some ([], cs)
    else
      match splitFirst sep cs with
      | some (a, b) => some (c :: a, b)
      | none => none

/-- Strip from the right all characters satisfying `p`
(models Python's `s.rstrip(chars)`). -/
def rstripP (p : Char → Bool) (l : List Char) : List Char :=
  (l.reverse.dropWhile p).reverse

/-- Strip from the left all characters satisfying `p`
(models Python's `s.lstrip(chars)`). -/
def lstripP (p : Char → Bool) (l : List Char) : List Char :=
  l.dropWhile p

/-- The ASCII whitespace characters stripped by Python's `str.strip()`. -/
def pySpace (c : Char) : Bool :=
  c = ' ' || c = '\t' || c = '\n' || c = '\x0b' || c = '\x0c' || c = '\r'

/-- Models Python's `s.strip()` (restricted to ASCII whitespace). -/
def pyStrip (l : List Char) : List Char :=
  rstripP pySpace (lstripP pySpace l)

/-! ## `sanitize_filename` (mediascrapers.py lines 25-28) -/

/-- The characters replaced by an underscore in `sanitize_filename`,
i.e. the regex class of the source. -/
def forbiddenChar (c : Char) : Bool :=
  c = '<' || c = '>' || c = ':' || c = '"' || c = '/' || c = '\\' ||
  c = '|' || c = '?' || c = '*' || c = '\n' || c = '\r' || c = '\t'

/-- Embedding of `sanitize_filename`: replace every character of the class
with an underscore, then `.strip()`, then `.rstrip('. ')`. -/
def sanitize_filename (name : String) : String :=
  let repl := name.data.map (fun c => if forbiddenChar c then '_' else c)
  String.mk (rstripP (fun c => c = '.' || c = ' ') (pyStrip repl))

/-! ## `urlparse` / `urlunparse` / `normalize_url` -/

/-- The characters Python's `urlsplit` accepts inside a URL scheme. -/
def isSchemeChar (c : Char) : Bool :=
  c.isAlpha || c.isDigit || c = '+' || c = '-' || c = '.'

/-- The result of `urllib.parse.urlparse` (the `params` component is
irrelevant here and therefore omitted: the source never reads it). -/
structure ParsedUrl where
  scheme : String
  netloc : String
  path : String
  query : String
  fragment : String
  deriving DecidableEq, Repr

/-- Embedding of `urllib.parse.urlparse` as used by the source: scheme
detection at the first colon, netloc after a leading `//` up to the first of
`/ ? #`, then the fragment split at the first `#`, then the query at the
first `?`; the remainder is the path. -/
def urlparse (url : String) : ParsedUrl :=
  let l := url.data
  let (scheme, rest) :=
    match splitFirst ':' l with
    | some (pre, post) =>
      if pre ≠ [] && pre.all isSchemeChar then
        (String.mk (pre.map Char.toLower), post)
      else ("", l)
    | none => ("", l)
  let (netloc, rest2) :=
    match rest with
    | '/' :: '/' :: r =>
      (String.mk (r.takeWhile (fun c => !(c = '/' || c = '?' || c = '#'))),
       r.dropWhile (fun c => !(c = '/' || c = '?' || c = '#')))
    | _ => ("", rest)
  let (beforeFrag, frag) :=
    match splitFirst '#' rest2 with
    | some (a, b) => (a, b)
    | none => (rest2, [])
  let (path, query) :=
    match splitFirst '?' beforeFrag with
    | some (a, b) => (a, b)
    | none => (beforeFrag, [])
  ⟨scheme, netloc, String.mk path, String.mk query, String.mk frag⟩

/-- Embedding of `urllib.parse.urlunparse` for an empty `params` component
(the only way the source calls it). -/
def urlunparse (scheme netloc path query fragment : String) : String :=
  let url :=
    if netloc ≠ "" || strStartsWith path "//" then
      "//" ++ netloc ++
        (if path ≠ "" && !(strStartsWith path "/") then "/" ++ path else path)
    else path
  let url := if scheme ≠ "" then scheme ++ ":" ++ url else url
  let url := if query ≠ "" then url ++ "?" ++ query else url
  if fragment ≠ "" then url ++ "#" ++ fragment else url

/-- Embedding of the inner `normalize_url` of `scrape_recursive_full_site`
(lines 144-147): parse, strip the trailing slashes of the path, and rebuild
with scheme forced to `https` and query/fragment dropped. -/
def normalize_url (url : String) : String :=
  let parsed := urlparse url
  let path := String.mk (rstripP (fun c => c = '/') parsed.path.data)
  urlunparse "https" parsed.netloc path "" ""

example : normalize_url "https://example.com/a/" = "https://example.com/a" := by decide
example : normalize_url "https://example.com/a" = "https://example.com/a" := by decide
example : normalize_url "http://example.com/a?q=1#f" = "https://example.com/a" := by decide
example : (urlparse "https://other.com/x").netloc = "other.com" := by decide
example : sanitize_filename "a<b>:c. " = "a_b__c" := by decide
example : sanitize_filename "  ti/tle\n.. " = "ti_tle_" := by decide

/-! ## Full-site crawl: `scrape_recursive_full_site` (lines 139-213)

The crawl is a while loop over an explicit FIFO queue.  Everything the loop
obtains from the outside world — whether `self._connect` succeeds on a given
attempt, what `self.scrape` returns (or whether it raises), which hrefs the
fetched page contains, and how `complete_url` resolves an href against the
current URL — is packaged in a `CrawlEnv`.  The task type `τ` is abstract:
the loop only ever appends tasks.  The crawl state carries, besides the
queue / visited set / task list of the source, three event logs: every
navigation (`self._connect` call), every completed page load, and every
`time.sleep` duration, in order. -/

/-- The host hard-coded in the domain filter of the source
(line 203: `if parsed.netloc != 'candidteens.net': continue`). -/
def targetHost : String := "candidteens.net"

/-- Environment of the full-site crawl: the external collaborators of the
loop body.  `connectOk url i` tells whether the `self._connect(url)` of retry
attempt `i` succeeds (an exception in the `try` block otherwise);
`scrapeResult url` is `some tasks` when `self.scrape(url)` returns and `none`
when it raises; `hrefs url` lists the `a[href]` attributes of the fetched
page; `completeUrl href base` models `util.url.complete_url`. -/
structure CrawlEnv (τ : Type) where
  connectOk : String → Nat → Bool
  scrapeResult : String → Option (List τ)
  hrefs : String → List String
  completeUrl : String → String → String

/-- State of the full-site crawl loop.  `visited` is the `visited` set
(normalized URLs, newest first); `sitemap` is the sitemap.txt append log;
`connects` logs every navigation attempt; `fetched` logs the URLs whose page
load completed; `sleeps` logs every `time.sleep` duration in order. -/
structure CrawlState (τ : Type) where
  queue : List String
  visited : List String
  sitemap : List String
  tasks : List τ
  connects : List String
  fetched : List String
  sleeps : List Nat
  deriving Repr

/-- The retry loop `for attempt in range(3)` (lines 170-185), unrolled over
its three attempts: each attempt navigates (logging the URL); a failure
sleeps 3 and moves on; a success stops the loop.  Returns the navigation log,
the sleep log, and whether any attempt succeeded (the `for`-`else` branch
runs exactly when this last component is `false`). -/
def retryFetch (env : CrawlEnv τ) (url : String) : List String × List Nat × Bool :=
  if env.connectOk url 0 then ([url], [], true)
  else if env.connectOk url 1 then ([url, url], [3], true)
  else if env.connectOk url 2 then ([url, url, url], [3, 3], true)
  else ([url, url, url], [3, 3, 3], false)

/-- The link-discovery loop (lines 195-209): for each href of the fetched
page, skip fragment-only and `javascript:` hrefs, resolve to an absolute URL,
skip hosts other than `targetHost`, and keep the URL only when its normalized
form is not in `visited`.  The visited set is not extended inside the loop,
exactly as in the source. -/
def discoverLinks (env : CrawlEnv τ) (url : String) (visited : List String) :
    List String :=
  (env.hrefs url).filterMap fun href =>
    if strStartsWith href "#" || strContains (lowerStr href) "javascript:" then
      none
    else
      let fullUrl := env.completeUrl href url
      if (urlparse fullUrl).netloc = targetHost then
        if normalize_url fullUrl ∈ visited then none else some fullUrl
      else none

/-- One iteration of the while loop body for a popped URL (the queue field of
`s` is the remaining queue).  Mirrors lines 157-211: skip when the normalized
URL is already visited; otherwise mark visited and log to the sitemap, run
the retry loop, and — only when some attempt succeeded — scrape (an exception
contributes no tasks), discover links, and sleep 1.  When all three attempts
fail, the `for`-`else` `continue` skips scraping, link discovery, and the
final sleep. -/
def processUrl (env : CrawlEnv τ) (url : String) (s : CrawlState τ) :
    CrawlState τ :=
  let n := normalize_url url
  if n ∈ s.visited then s
  else
    let r := retryFetch env url
    if r.2.2 then
      { s with
        visited := n :: s.visited
        sitemap := s.sitemap ++ [n]
        connects := s.connects ++ r.1
        fetched := s.fetched ++ [url]
        tasks := s.tasks ++ (env.scrapeResult url).getD []
        queue := s.queue ++ discoverLinks env url (n :: s.visited)
        sleeps := (s.sleeps ++ r.2.1) ++ [1] }
    else
      { s with
        visited := n :: s.visited
        sitemap := s.sitemap ++ [n]
        connects := s.connects ++ r.1
        sleeps := s.sleeps ++ r.2.1 }

/-- The while loop (line 156), fuelled: each unit of fuel runs one iteration;
the loop stops when the queue is empty.  (The source loop need not terminate
on an infinite site, hence the explicit fuel.) -/
def crawlRun (env : CrawlEnv τ) : Nat → CrawlState τ → CrawlState τ
  | 0, s => s
  | fuel + 1, s =>
    match s.queue with
    | [] => s
    | url :: rest => crawlRun env fuel (processUrl env url { s with queue := rest })

/-- The initial crawl state: the queue is seeded with the one argument URL,
everything else is empty (`visited=None` creates a fresh set). -/
def initState (τ : Type) (url : String) : CrawlState τ :=
  { queue := [url], visited := [], sitemap := [], tasks := []
    connects := [], fetched := [], sleeps := [] }

/-- Embedding of `Scraper.scrape_recursive_full_site` itself: run the loop
from the seeded initial state. -/
def scrape_recursive_full_site (env : CrawlEnv τ) (url : String) (fuel : Nat) :
    CrawlState τ :=
  crawlRun env fuel (initState τ url)

/-! ## Bounded-depth traversal: `Scraper.scrape_recursive` (lines 32-60)

Recursive descent with an explicit depth counter and a *shared, mutable*
visited set of raw (unnormalized) URL strings, threaded here explicitly.
`self.scrape(url)` is the fetch of a page (it navigates internally); an
exception there yields `[]` for the branch but keeps the URL in the visited
set.  On success the page is re-connected and its hrefs starting with `/` or
`http` are resolved by `complete_url` against `self._driver.current_url` and
recursed into with depth − 1, tasks accumulated in link order. -/

/-- Environment of the bounded-depth traversal.  `scrapeResult url` is
`some tasks` when `self.scrape(url)` returns and `none` when it raises;
`hrefs url` lists the `a[href]` attributes of the page at `url`;
`currentUrl url` is `self._driver.current_url` after connecting to `url`;
`completeUrl` models `util.url.complete_url`. -/
structure RecEnv (τ : Type) where
  scrapeResult : String → Option (List τ)
  hrefs : String → List String
  currentUrl : String → String
  completeUrl : String → String → String

/-- The link list of lines 50-54: keep hrefs starting with `/` or `http`,
resolved against the driver's current URL. -/
def recLinks (env : RecEnv τ) (url : String) : List String :=
  (env.hrefs url).filterMap fun href =>
    if strStartsWith href "/" || strStartsWith href "http" then
      some (env.completeUrl href (env.currentUrl url))
    else none

/-- Embedding of `Scraper.scrape_recursive`.  Returns the task list, the
final visited set, and the log of fetch invocations (`self.scrape(url)`
calls), in order.  The guard of line 36 tests the *raw* URL string against
`visited` (no normalization) and returns `[]` when it is present or when the
depth counter is zero. -/
def scrape_recursive (env : RecEnv τ) :
    Nat → String → List String → List τ × List String × List String
  | 0, _, visited => ([], visited, [])
  | depth + 1, url, visited =>
    if url ∈ visited then ([], visited, [])
    else
      let visited := url :: visited
      match env.scrapeResult url with
      | none => ([], visited, [url])
      | some tasks =>
        (recLinks env url).foldl
          (fun acc link =>
            let r := scrape_recursive env depth link acc.2.1
            (acc.1 ++ r.1, r.2.1, acc.2.2 ++ r.2.2))
          (tasks, visited, [url])

/-! ## `MediaScraper.scrape` task construction (lines 229-267)

Only the parts the claims need: the page title is sanitized once, the media
URL candidates are collected from anchors (href and text), images, and
videos in source order, and every task triple is
`(complete_url(m, current_url), title, None)`. -/

/-- A download task as produced by `MediaScraper.scrape`:
`(media URL, label, optional filename hint)`. -/
structure MTask where
  mediaUrl : String
  label : String
  filenameHint : Option String
  deriving DecidableEq, Repr

/-- Environment of `MediaScraper.scrape` for one page: the rendered page's
title text, its anchor tags as (href, text) pairs, its image and video `src`
attributes, the external predicate `util.url.is_media`, the external resolver
`util.url.complete_url`, and the driver's current URL. -/
structure MsEnv where
  rawTitle : String
  aTags : List (String × String)
  imgSrcs : List String
  videoSrcs : List String
  isMedia : String → Bool
  completeUrl : String → String → String
  currentUrl : String

/-- The `media_urls` list of lines 240-254: per anchor, its href when
`is_media`, then its text when `is_media`; then the media image sources; then
the media video sources. -/
def msMediaUrls (env : MsEnv) : List String :=
  (env.aTags.foldl
    (fun acc t =>
      (acc ++ (if env.isMedia t.1 then [t.1] else []))
        ++ (if env.isMedia t.2 then [t.2] else []))
    [])
  ++ env.imgSrcs.filter env.isMedia ++ env.videoSrcs.filter env.isMedia

/-- Embedding of the task construction of `MediaScraper.scrape` (line 259):
one triple per collected media URL, labelled with the sanitized title. -/
def mediaScrape (env : MsEnv) : List MTask :=
  let title := sanitize_filename env.rawTitle
  (msMediaUrls env).map fun m =>
    { mediaUrl := env.completeUrl m env.currentUrl
      label := title
      filenameHint := none }

/-! ## Pagination walker: `InstagramScraper.scrape` (lines 340-389)

The initial `getJsonData(username)` yields the first batch of edges with a
`(has_next_page, end_cursor)` pair; the loop `while len(edges) > 0` processes
each edge (a secondary fetch plus `parse_node`, modelled as the two
environment projections) and, when `has_next_page` holds, requests the next
batch by cursor.  Crucially, line 368 reads `tasks += (task[0], username,
task[1])`: in Python, augmenting a list with a tuple extends the list with
the tuple's elements severally, so each edge contributes *three* entries to
the flat result list rather than one triple. -/

/-- One API batch: the edge list plus the `page_info` fields
`has_next_page` and `end_cursor`. -/
structure InstaBatch (ι : Type) where
  edges : List ι
  hasNext : Bool
  endCursor : String

/-- Environment of the pagination walker over an abstract edge type `ι`:
the first batch (response to `getJsonData(username)`), the cursor-keyed
follow-up batches (`getJsonData(user_id, end_cursor)`), and the two
components `task[0]` and `task[1]` of the per-edge
`parse_node(post['graphql']['shortcode_media'])` result. -/
structure InstaEnv (ι : Type) where
  username : String
  firstBatch : InstaBatch ι
  nextBatch : String → InstaBatch ι
  taskFst : ι → String
  taskSnd : ι → String

/-- The `while len(edges) > 0` loop (lines 362-381), fuelled.  Returns the
accumulated flat task list and the number of batch requests issued so far
(counting the initial one the caller passes in). -/
def instaLoop (env : InstaEnv ι) :
    Nat → List ι → Bool → String → List String → Nat → List String × Nat
  | 0, _, _, _, tasks, reqs => (tasks, reqs)
  | fuel + 1, edges, hasNext, cursor, tasks, reqs =>
    if edges.isEmpty then (tasks, reqs)
    else
      let tasks := edges.foldl
        (fun acc e => acc ++ [env.taskFst e, env.username, env.taskSnd e]) tasks
      if hasNext then
        let b := env.nextBatch cursor
        instaLoop env fuel b.edges b.hasNext b.endCursor tasks (reqs + 1)
      else
        (tasks, reqs)

/-- Embedding of `InstagramScraper.scrape`: one initial batch request, then
the pagination loop.  The first component is the returned `tasks` list, the
second the total number of batch requests issued. -/
def instagram_scrape (env : InstaEnv ι) (fuel : Nat) : List String × Nat :=
  instaLoop env fuel env.firstBatch.edges env.firstBatch.hasNext
    env.firstBatch.endCursor [] 1

/-! ## Concrete environments for witnesses and counterexamples -/

/-- A well-behaved site on the target host: the seed page `/a` links to `/b`
and `/c`, page `/b` links to `/c` again; all fetches succeed, scraping yields
no tasks. -/
def envDupLink : CrawlEnv Nat :=
  { connectOk := fun _ _ => true
    scrapeResult := fun _ => some []
    hrefs := fun u =>
      if u = "https://candidteens.net/a" then ["/b", "/c"]
      else if u = "https://candidteens.net/b" then ["/c"]
      else []
    completeUrl := fun href _ => "https://candidteens.net" ++ href }

/-- A site on the target host where every navigation attempt fails. -/
def envAllFail : CrawlEnv Nat :=
  { connectOk := fun _ _ => false
    scrapeResult := fun _ => some []
    hrefs := fun _ => []
    completeUrl := fun href _ => href }

/-- A site on the target host whose seed page links to `/a`; all fetches
succeed. -/
def envDiscover : CrawlEnv Nat :=
  { connectOk := fun _ _ => true
    scrapeResult := fun _ => some []
    hrefs := fun u => if u = "https://candidteens.net/" then ["/a"] else []
    completeUrl := fun href _ => "https://candidteens.net" ++ href }

/-- The three-URL scenario of the partial-failure property: the seed `/p1`
links to `/p2` and `/p3`; every navigation to `/p2` fails; each page's scrape
contributes one distinguishable task. -/
def envPartialFail : CrawlEnv String :=
  { connectOk := fun u _ => !(u = "https://candidteens.net/p2")
    scrapeResult := fun u =>
      if u = "https://candidteens.net/p1" then some ["task1"]
      else if u = "https://candidteens.net/p2" then some ["task2"]
      else if u = "https://candidteens.net/p3" then some ["task3"]
      else some []
    hrefs := fun u => if u = "https://candidteens.net/p1" then ["/p2", "/p3"] else []
    completeUrl := fun href _ => "https://candidteens.net" ++ href }

/-- A trivial environment: every fetch succeeds, no page has links or
tasks. -/
def envPlain : CrawlEnv Nat :=
  { connectOk := fun _ _ => true
    scrapeResult := fun _ => some []
    hrefs := fun _ => []
    completeUrl := fun href _ => href }

/-- A crawl state whose frontier holds the two spellings of the same page,
with a trailing slash and without. -/
def pairState : CrawlState Nat :=
  { queue := ["https://example.com/a/", "https://example.com/a"]
    visited := [], sitemap := [], tasks := []
    connects := [], fetched := [], sleeps := [] }

/-- A bounded-depth environment: every scrape succeeds with no tasks and no
page has links. -/
def envRaw : RecEnv Nat :=
  { scrapeResult := fun _ => some []
    hrefs := fun _ => []
    currentUrl := fun u => u
    completeUrl := fun href _ => href }

/-- A one-page `MediaScraper` environment: a title needing sanitizing and a
single media link. -/
def envMs : MsEnv :=
  { rawTitle := "My <Movie>: Best?? "
    aTags := [("http://img.host/x.jpg", "x")]
    imgSrcs := []
    videoSrcs := []
    isMedia := fun s => strContains s ".jpg"
    completeUrl := fun m _ => m
    currentUrl := "http://img.host/page" }

/-- The task triple expected from `envMs`. -/
def msTask : MTask :=
  { mediaUrl := "http://img.host/x.jpg"
    label := sanitize_filename "My <Movie>: Best?? "
    filenameHint := none }

/-- A single-batch Instagram profile: one post, `has_next_page = false`,
whose `parse_node` result has components `"https://media/img.jpg"` and
`"img"`; the username is `alice`. -/
def envInsta : InstaEnv Unit :=
  { username := "alice"
    firstBatch := { edges := [()], hasNext := false, endCursor := "end" }
    nextBatch := fun _ => { edges := [], hasNext := false, endCursor := "" }
    taskFst := fun _ => "https://media/img.jpg"
    taskSnd := fun _ => "img" }

/-! ## Predicates used by the theorems -/

/-- The invariant of the full-site crawl loop used for idempotent visiting:
the sitemap log is duplicate-free and has the same members as the visited
set, and the completed page loads are duplicate-free after normalization and
recorded in the visited set. -/
def CrawlInv {τ : Type} (s : CrawlState τ) : Prop :=
  s.sitemap.Nodup ∧ (∀ x, x ∈ s.sitemap ↔ x ∈ s.visited) ∧
  (s.fetched.map normalize_url).Nodup ∧ ∀ u ∈ s.fetched, normalize_url u ∈ s.visited

/-- A filename label is clean when it has none of the characters of the
regex class of `sanitize_filename` and does not end with a dot or a
space. -/
def labelOk (s : String) : Bool :=
  s.data.all (fun c => !forbiddenChar c) &&
  (match s.data.getLast? with
   | some c => !(c = '.' || c = ' ')
   | none => true)

/-! ## Theorems -/

/-- C9: `normalize_url` maps the trailing-slash and slash-free spellings of a
page to the same normalized URL, and in full-site mode a frontier holding
both spellings navigates to the page only once: the second occurrence is
popped, found visited, and never fetched. -/
theorem normalize_url_equivalence :
    normalize_url "https://example.com/a/" = "https://example.com/a" ∧
    normalize_url "https://example.com/a" = "https://example.com/a" ∧
    (crawlRun envPlain 2 pairState).connects = ["https://example.com/a/"] ∧
    (crawlRun envPlain 2 pairState).queue = [] := by
  refine ⟨by decide, by decide, by decide, by decide⟩

/-- C6: in the three-URL scenario where every fetch of URL 2 fails, the final
task list holds the contributions of URL 1 and URL 3 only, while the sitemap
log holds all three normalized URLs (logging precedes the fetch attempt), and
the crawl terminates. -/
theorem fullsite_partial_failure_continuation :
    (scrape_recursive_full_site envPartialFail "https://candidteens.net/p1" 3).tasks
        = ["task1", "task3"] ∧
    (scrape_recursive_full_site envPartialFail "https://candidteens.net/p1" 3).sitemap
        = ["https://candidteens.net/p1", "https://candidteens.net/p2",
           "https://candidteens.net/p3"] ∧
    (scrape_recursive_full_site envPartialFail "https://candidteens.net/p1" 3).fetched
        = ["https://candidteens.net/p1", "https://candidteens.net/p3"] ∧
    (scrape_recursive_full_site envPartialFail "https://candidteens.net/p1" 3).queue
        = [] := by
  refine ⟨by decide, by decide, by decide, by decide⟩

/-- C5 counterexample: a reachable crawl state whose frontier still holds
`/c` although the normalized form of `/c` is already in the visited set (the
seed `/a` links to `/b` and `/c`, and `/b` links to `/c` again before `/c` is
first processed).  This refutes the claim that the frontier never contains a
URL whose normalized form is already visited. -/
theorem fullsite_frontier_stale_counterexample :
    (scrape_recursive_full_site envDupLink "https://candidteens.net/a" 3).queue
        = ["https://candidteens.net/c"] ∧
    normalize_url "https://candidteens.net/c"
        ∈ (scrape_recursive_full_site envDupLink "https://candidteens.net/a" 3).visited := by
  refine ⟨by decide, by decide⟩

/-- C8 counterexample: a URL is popped and processed (it reaches the sitemap
log), all three navigation attempts fail, and the sleep log is `[3, 3, 3]` —
the three retry cooldowns with *no* final inter-page delay of 1, because the
`for`-`else` `continue` of line 185 skips the `time.sleep(1)` of line 211.
This refutes the claim that the fixed inter-page delay occurs after every
popped URL regardless of outcome. -/
theorem fullsite_delay_skipped_counterexample :
    (scrape_recursive_full_site envAllFail "https://candidteens.net/x" 1).sitemap
        = ["https://candidteens.net/x"] ∧
    (scrape_recursive_full_site envAllFail "https://candidteens.net/x" 1).sleeps
        = [3, 3, 3] := by
  refine ⟨by decide, by decide⟩

/-- C7 counterexample: bounded-depth mode deduplicates on the raw URL string,
not on its normalized form.  Here the visited set already contains the
normalized form of the call URL (`https://example.com/a`), yet the traversal
does not stop: it fetches the page (the fetch log is nonempty).  This refutes
clause (a) of the claim as stated. -/
theorem bounded_depth_raw_visited_counterexample :
    normalize_url "https://example.com/a/" ∈ (["https://example.com/a"] : List String) ∧
    (scrape_recursive envRaw 2 "https://example.com/a/" ["https://example.com/a"]).2.2
        = ["https://example.com/a/"] := by
  refine ⟨by decide, by decide⟩

/-- C3 (code bug): evaluated on a single-batch profile with one post whose
parsed task has components `"https://media/img.jpg"` and `"img"`, the walker
issues one batch request and terminates, but — because line 368 augments the
task list with a tuple, which Python flattens — it returns the three entries
`task[0]`, `username`, `task[1]` severally instead of one `Task` triple. -/
theorem instagram_scrape_flattens_tasks :
    instagram_scrape envInsta 5 = (["https://media/img.jpg", "alice", "img"], 1) := by
  decide

/-! ### Helper lemmas -/

theorem nodup_concat {α : Type} {l : List α} {a : α} (h : l.Nodup) (ha : a ∉ l) :
    (l ++ [a]).Nodup := by
  rw [List.nodup_append]
  exact ⟨h, List.nodup_singleton a, by simpa [List.disjoint_singleton] using ha⟩

theorem head_dropWhile_false {α : Type} (p : α → Bool) :
    ∀ (l : List α) (c : α), (l.dropWhile p).head? = some c → p c = false := by
  intro l
  induction l with
  | nil => intro c h; simp [List.dropWhile] at h
  | cons x xs ih =>
    intro c h
    by_cases hp : p x
    · rw [List.dropWhile_cons_of_pos hp] at h
      exact ih c h
    · rw [List.dropWhile_cons_of_neg hp] at h
      simp at h
      subst h
      simpa using hp

theorem mem_of_mem_dropWhile {α : Type} {p : α → Bool} {l : List α} {c : α}
    (h : c ∈ l.dropWhile p) : c ∈ l :=
  (List.dropWhile_sublist p).mem h

theorem mem_of_mem_rstripP {p : Char → Bool} {l : List Char} {c : Char}
    (h : c ∈ rstripP p l) : c ∈ l := by
  unfold rstripP at h
  rw [List.mem_reverse] at h
  exact List.mem_reverse.mp (mem_of_mem_dropWhile h)

/-- Any URL the link-discovery loop produces resolves to the target host and
has an unvisited normalized form. -/
theorem discoverLinks_mem {τ : Type} (env : CrawlEnv τ) (url : String)
    (vis : List String) (u : String) (hu : u ∈ discoverLinks env url vis) :
    (urlparse u).netloc = targetHost ∧ normalize_url u ∉ vis := by
  unfold discoverLinks at hu
  rw [List.mem_filterMap] at hu
  obtain ⟨href, _, hf⟩ := hu
  simp only at hf
  split_ifs at hf with h1 h2 h3
  all_goals simp at hf
  subst hf
  exact ⟨h2, h3⟩

theorem crawlInv_processUrl {τ : Type} (env : CrawlEnv τ) (url : String)
    (s : CrawlState τ) (h : CrawlInv s) : CrawlInv (processUrl env url s) := by
  obtain ⟨h1, h2, h3, h4⟩ := h
  unfold processUrl
  by_cases hn : normalize_url url ∈ s.visited
  · rw [if_pos hn]
    exact ⟨h1, h2, h3, h4⟩
  · rw [if_neg hn]
    have hs : normalize_url url ∉ s.sitemap := fun hx => hn ((h2 _).mp hx)
    have hsm : (s.sitemap ++ [normalize_url url]).Nodup := nodup_concat h1 hs
    have hiff : ∀ x, x ∈ s.sitemap ++ [normalize_url url] ↔
        x ∈ normalize_url url :: s.visited := by
      intro x
      simp only [List.mem_append, List.mem_singleton, List.mem_cons]
      rw [h2 x]
      tauto
    by_cases hok : (retryFetch env url).2.2
    · rw [if_pos hok]
      refine ⟨hsm, hiff, ?_, ?_⟩
      · rw [List.map_append]
        refine nodup_concat h3 ?_
        intro hmem
        rw [List.mem_map] at hmem
        obtain ⟨v, hv, hvn⟩ := hmem
        exact hn (hvn ▸ h4 v hv)
      · intro u hu
        rw [List.mem_append, List.mem_singleton] at hu
        rcases hu with hu | rfl
        · exact List.mem_cons_of_mem _ (h4 u hu)
        · exact List.mem_cons_self _ _
    · rw [if_neg hok]
      exact ⟨hsm, hiff, h3, fun u hu => List.mem_cons_of_mem _ (h4 u hu)⟩

theorem crawlInv_run {τ : Type} (env : CrawlEnv τ) (fuel : Nat) :
    ∀ s : CrawlState τ, CrawlInv s → CrawlInv (crawlRun env fuel s) := by
  induction fuel with
  | zero => intro s h; exact h
  | succ n ih =>
    intro s h
    rw [crawlRun]
    split
    · exact h
    · exact ih _ (crawlInv_processUrl env _ _ h)

/-- C1: in full-site mode, for every environment, fuel, and seed, the sitemap
log never records a normalized URL twice, and no two completed page loads
(navigations that actually fetched a page — within one visit, the retry
controller re-navigates only after a failed attempt) share a normalized URL:
each normalized URL is logged at most once and fetched at most once, however
often it is discovered and enqueued. -/
theorem fullsite_idempotent_visiting (τ : Type) (env : CrawlEnv τ)
    (url : String) (fuel : Nat) :
    (scrape_recursive_full_site env url fuel).sitemap.Nodup ∧
    ((scrape_recursive_full_site env url fuel).fetched.map normalize_url).Nodup := by
  have h : CrawlInv (crawlRun env fuel (initState τ url)) := by
    refine crawlInv_run env fuel _ ⟨List.nodup_nil, ?_, List.nodup_nil, ?_⟩
    · intro x; simp [initState]
    · intro u hu; simp [initState] at hu
  exact ⟨h.1, h.2.2.1⟩

/-- One loop iteration only ever adds target-host URLs to the frontier:
every queue element afterwards was queued before or resolves to the target
host. -/
theorem processUrl_queue_mem {τ : Type} (env : CrawlEnv τ) (url : String)
    (s : CrawlState τ) (u : String) (hu : u ∈ (processUrl env url s).queue) :
    u ∈ s.queue ∨ (urlparse u).netloc = targetHost := by
  simp only [processUrl] at hu
  split_ifs at hu with h1 h2
  · exact Or.inl hu
  · simp only [List.mem_append] at hu
    rcases hu with hu | hu
    · exact Or.inl hu
    · exact Or.inr (discoverLinks_mem env url _ u hu).1
  · exact Or.inl hu

theorem crawlRun_queue_host {τ : Type} (env : CrawlEnv τ) (seed : String)
    (fuel : Nat) :
    ∀ s : CrawlState τ,
      (∀ u ∈ s.queue, u = seed ∨ (urlparse u).netloc = targetHost) →
      ∀ u ∈ (crawlRun env fuel s).queue,
        u = seed ∨ (urlparse u).netloc = targetHost := by
  induction fuel with
  | zero => intro s h; exact h
  | succ n ih =>
    intro s h
    rw [crawlRun]
    split
    · exact h
    case _ url rest heq =>
      refine ih _ ?_
      intro u hu
      rcases processUrl_queue_mem env url _ u hu with hq | hh
      · exact h u (by rw [heq]; exact List.mem_cons_of_mem _ hq)
      · exact Or.inr hh

/-- C4: in full-site mode, every URL ever present in the frontier is either
the seed itself or resolves to the configured target host
(`candidteens.net`, hard-coded at line 203); hence a discovered link whose
resolved host differs from the target host is never enqueued — it is
silently dropped, and in particular never reaches the sitemap log, which
only records popped unvisited URLs. -/
theorem fullsite_domain_filter (τ : Type) (env : CrawlEnv τ) (seed : String)
    (fuel : Nat) (u : String)
    (hu : u ∈ (scrape_recursive_full_site env seed fuel).queue)
    (hne : u ≠ seed) : (urlparse u).netloc = targetHost := by
  have h := crawlRun_queue_host env seed fuel (initState τ seed)
    (by intro v hv; simp [initState] at hv; exact Or.inl hv) u hu
  exact h.resolve_left hne

/-- Witness for C4 at a concrete crawl: after one iteration the discovered
link `/a` is in the frontier and resolves to the target host. -/
theorem fullsite_domain_filter_witness :
    "https://candidteens.net/a"
        ∈ (scrape_recursive_full_site envDiscover "https://candidteens.net/" 1).queue ∧
    (urlparse "https://candidteens.net/a").netloc = targetHost :=
  ⟨by decide,
   fullsite_domain_filter Nat envDiscover "https://candidteens.net/" 1
     "https://candidteens.net/a" (by decide) (by decide)⟩

/-- The retry loop of a URL whose every navigation attempt fails: three
logged attempts, a 3-unit cooldown after each, no success. -/
theorem retryFetch_all_fail {τ : Type} (env : CrawlEnv τ) (url : String)
    (h : ∀ i, env.connectOk url i = false) :
    retryFetch env url = ([url, url, url], [3, 3, 3], false) := by
  simp [retryFetch, h 0, h 1, h 2]

/-- C2: if every navigation attempt for the URL at the head of the frontier
fails, the crawl makes exactly 3 fetch attempts (each followed by the fixed
3-unit cooldown), then abandons the URL — the task list, fetched log, and
frontier gain nothing from it, so no tasks are extracted and no links are
discovered — and the loop continues with the remaining queue.  (The embedding
is a total function: no exception escapes the loop body.) -/
theorem fullsite_retry_exhaustion (τ : Type) (env : CrawlEnv τ) (url : String)
    (rest : List String) (s : CrawlState τ) (fuel : Nat)
    (hfail : ∀ i, env.connectOk url i = false)
    (hnew : normalize_url url ∉ s.visited)
    (hq : s.queue = url :: rest) :
    crawlRun env (fuel + 1) s =
      crawlRun env fuel
        { s with
          queue := rest
          visited := normalize_url url :: s.visited
          sitemap := s.sitemap ++ [normalize_url url]
          connects := s.connects ++ [url, url, url]
          sleeps := s.sleeps ++ [3, 3, 3] } := by
  rw [crawlRun, hq]
  have hp : processUrl env url { s with queue := rest } =
      { s with
        queue := rest
        visited := normalize_url url :: s.visited
        sitemap := s.sitemap ++ [normalize_url url]
        connects := s.connects ++ [url, url, url]
        sleeps := s.sleeps ++ [3, 3, 3] } := by
    unfold processUrl
    rw [retryFetch_all_fail env url hfail]
    simp [hnew]
  show crawlRun env fuel (processUrl env url { s with queue := rest }) = _
  rw [hp]

/-- Witness for C2: a concrete all-failing crawl of one URL reduces, in one
loop iteration, to the continuation state with three attempts logged, three
cooldowns, and nothing else. -/
theorem fullsite_retry_exhaustion_witness :
    crawlRun envAllFail 1 (initState Nat "https://candidteens.net/x") =
      crawlRun envAllFail 0
        { queue := []
          visited := [normalize_url "https://candidteens.net/x"]
          sitemap := [normalize_url "https://candidteens.net/x"]
          tasks := []
          connects := ["https://candidteens.net/x", "https://candidteens.net/x",
                       "https://candidteens.net/x"]
          fetched := []
          sleeps := [3, 3, 3] } :=
  fullsite_retry_exhaustion Nat envAllFail "https://candidteens.net/x" []
    (initState Nat "https://candidteens.net/x") 0 (fun _ => rfl) (by decide) rfl

/-- C5 (amended): the frontier discipline the code actually maintains — a
popped URL whose normalized form is already visited is discarded with no
effect at all (no fetch, no log), and the discovery loop enqueues only links
whose normalized form is unvisited at enqueue time.  (Entries whose
normalized form becomes visited while they wait in the queue may persist, as
the counterexample shows.) -/
theorem fullsite_frontier_discipline (τ : Type) (env : CrawlEnv τ)
    (url u : String) (s : CrawlState τ) (vis : List String) :
    (normalize_url url ∈ s.visited → processUrl env url s = s) ∧
    (u ∈ discoverLinks env url vis → normalize_url u ∉ vis) := by
  constructor
  · intro h
    unfold processUrl
    rw [if_pos h]
  · intro h
    exact (discoverLinks_mem env url vis u h).2

/-- Witness for C5 (amended): popping the already-visited `/c` changes
nothing, and the freshly discovered `/b` has an unvisited normalized form. -/
theorem fullsite_frontier_discipline_witness :
    processUrl envDupLink "https://candidteens.net/c"
        (scrape_recursive_full_site envDupLink "https://candidteens.net/a" 3)
      = scrape_recursive_full_site envDupLink "https://candidteens.net/a" 3 ∧
    normalize_url "https://candidteens.net/b" ∉ ([] : List String) :=
  ⟨(fullsite_frontier_discipline Nat envDupLink "https://candidteens.net/c"
      "https://candidteens.net/b"
      (scrape_recursive_full_site envDupLink "https://candidteens.net/a" 3) []).1
      (by decide),
   (fullsite_frontier_discipline Nat envDupLink "https://candidteens.net/a"
      "https://candidteens.net/b"
      (scrape_recursive_full_site envDupLink "https://candidteens.net/a" 3) []).2
      (by decide)⟩

/-- C8 (amended): for a popped unvisited URL, the fixed 1-unit inter-page
delay occurs exactly when some retry attempt succeeded — regardless of
whether the subsequent per-page scrape fails — and is skipped when all three
attempts fail (such a URL incurs only the retry cooldowns, because the
`for`-`else` `continue` bypasses the `time.sleep(1)`); an already-visited pop
sleeps not at all. -/
theorem fullsite_interpage_delay (τ : Type) (env : CrawlEnv τ) (url : String)
    (s : CrawlState τ) (hnew : normalize_url url ∉ s.visited) :
    ((retryFetch env url).2.2 = true →
      (processUrl env url s).sleeps = (s.sleeps ++ (retryFetch env url).2.1) ++ [1]) ∧
    ((retryFetch env url).2.2 = false →
      (processUrl env url s).sleeps = s.sleeps ++ (retryFetch env url).2.1) := by
  constructor <;> intro h <;>
    · unfold processUrl
      rw [if_neg hnew]
      simp [h]

/-- Witness for C8 (amended): a successful fetch of a fresh URL ends its
iteration with the 1-unit inter-page delay. -/
theorem fullsite_interpage_delay_witness :
    (processUrl envDiscover "https://candidteens.net/"
        (initState Nat "https://candidteens.net/")).sleeps =
      (((initState Nat "https://candidteens.net/").sleeps ++
        (retryFetch envDiscover "https://candidteens.net/").2.1) ++ [1]) :=
  (fullsite_interpage_delay Nat envDiscover "https://candidteens.net/"
    (initState Nat "https://candidteens.net/") (by decide)).1 (by decide)

/-- The fetch log of the descent loop only grows: folding the recursive
descent over a link list appends to the accumulated log. -/
theorem scrape_recursive_foldl_log {τ : Type} (env : RecEnv τ) (depth : Nat) :
    ∀ (links : List String) (acc : List τ × List String × List String),
      ∃ l, (links.foldl
          (fun acc link =>
            let r := scrape_recursive env depth link acc.2.1
            (acc.1 ++ r.1, r.2.1, acc.2.2 ++ r.2.2)) acc).2.2 = acc.2.2 ++ l := by
  intro links
  induction links with
  | nil => intro acc; exact ⟨[], by simp⟩
  | cons x xs ih =>
    intro acc
    rw [List.foldl_cons]
    obtain ⟨l, hl⟩ := ih _
    exact ⟨(scrape_recursive env depth x acc.2.1).2.2 ++ l, by
      rw [hl]; simp [List.append_assoc]⟩

/-- C7 (amended): the bounded-depth traversal stops — returning an empty
task list, an unchanged visited set, and an empty fetch log — exactly when
the URL string itself (no normalization happens in this mode) is already in
the visited set or the remaining depth is zero; otherwise the URL is
fetched (the fetch log begins with it). -/
theorem bounded_depth_stop_condition (τ : Type) (env : RecEnv τ) (depth : Nat)
    (url : String) (vis : List String) :
    (url ∈ vis ∨ depth = 0 → scrape_recursive env depth url vis = ([], vis, [])) ∧
    (url ∉ vis → depth ≠ 0 →
      (scrape_recursive env depth url vis).2.2.head? = some url) := by
  constructor
  · intro h
    match depth with
    | 0 => rw [scrape_recursive]
    | d + 1 =>
      rcases h with h | h
      · rw [scrape_recursive, if_pos h]
      · exact absurd h (Nat.succ_ne_zero d)
  · intro hv hd
    match depth with
    | 0 => exact absurd rfl hd
    | d + 1 =>
      rw [scrape_recursive, if_neg hv]
      split
      · rfl
      · obtain ⟨l, hl⟩ := scrape_recursive_foldl_log env d (recLinks env url) _
        rw [hl]
        rfl

/-- Witness for C7 (amended): at depth 0 the traversal returns nothing, and
at positive depth on an unvisited URL the fetch log begins with that URL. -/
theorem bounded_depth_stop_condition_witness :
    scrape_recursive envRaw 0 "https://example.com/a" [] = ([], [], []) ∧
    (scrape_recursive envRaw 2 "https://example.com/a" []).2.2.head?
        = some "https://example.com/a" :=
  ⟨(bounded_depth_stop_condition Nat envRaw 0 "https://example.com/a" []).1
      (Or.inr rfl),
   (bounded_depth_stop_condition Nat envRaw 2 "https://example.com/a" []).2
      (by decide) (by decide)⟩

/-- `sanitize_filename` always produces a clean label: underscores replace
the whole regex class, and the final strips leave no trailing dot or
space. -/
theorem labelOk_sanitize (name : String) : labelOk (sanitize_filename name) = true := by
  unfold labelOk sanitize_filename
  rw [Bool.and_eq_true]
  constructor
  · rw [List.all_eq_true]
    intro c hc
    have hc2 : c ∈ pyStrip (name.data.map (fun c => if forbiddenChar c then '_' else c)) :=
      mem_of_mem_rstripP hc
    have hc3 : c ∈ name.data.map (fun c => if forbiddenChar c then '_' else c) :=
      mem_of_mem_dropWhile (mem_of_mem_rstripP hc2)
    rw [List.mem_map] at hc3
    obtain ⟨a, _, rfl⟩ := hc3
    by_cases h : forbiddenChar a
    · simp [h]
      decide
    · simp [h]
  · cases hg : (String.mk (rstripP (fun c => c = '.' || c = ' ')
      (pyStrip (name.data.map (fun c => if forbiddenChar c then '_' else c))))).data.getLast? with
    | none => rfl
    | some c =>
      have hg2 : ((pyStrip (name.data.map
          (fun c => if forbiddenChar c then '_' else c))).reverse.dropWhile
            (fun c => c = '.' || c = ' ')).head? = some c := by
        have := hg
        unfold rstripP at this
        rw [List.getLast?_reverse] at this
        exact this
      have hp := head_dropWhile_false (fun c => c = '.' || c = ' ') _ c hg2
      simp only [hg]
      simp [hp]

/-- C10: every task triple `MediaScraper.scrape` returns carries a label —
the sanitized page title — containing none of the characters
of the class replaced by `sanitize_filename` (angle brackets, colon, quote,
slashes, pipe, question mark, asterisk, newline, carriage return, tab) and
ending in neither a dot nor a space. -/
theorem media_scrape_label_sanitized (env : MsEnv) (t : MTask)
    (ht : t ∈ mediaScrape env) : labelOk t.label = true := by
  simp only [mediaScrape, List.mem_map] at ht
  obtain ⟨m, _, rfl⟩ := ht
  exact labelOk_sanitize env.rawTitle

/-- Witness for C10: the concrete one-page scrape produces the expected
task, whose label is clean. -/
theorem media_scrape_label_sanitized_witness :
    msTask ∈ mediaScrape envMs ∧ labelOk msTask.label = true :=
  ⟨by decide, media_scrape_label_sanitized envMs msTask (by decide)⟩

end MediaScraper
